import Mathlib

set_option autoImplicit false
set_option maxRecDepth 40000

namespace Vidyalog

/-! # Shallow embedding of the vidyalog filter/repository core

This file embeds the data model and the operations of the vidyalog
repository layer: the in-memory filter evaluator
(`libs/filter/filter_expression_evaluator.py`), the document-store query
builder (`modules/repositories/utils/tinydb_query_builder.py`), the
repository filter pipelines (`in_memory_repository.py`,
`tinydb_repository.py`, `smol_sql_repository.py`), the relational value
codec (`serialize`/`deserialize` in `smol_sql_repository.py`) and the
schema synthesizer (`smolorm/sqlmodel.py`).  Python's dynamically typed
values are embedded as an explicit value grammar, and operations that can
raise are embedded in `Except PyError`. -/

/-- A naive (timezone-free) date-time, as produced by Python's
`datetime.now()` in the source.  Its `isoformat` rendering is
`YYYY-MM-DDTHH:MM:SS`, which never ends with the letter `Z`. -/
structure DateTime where
  year : Nat
  month : Nat
  day : Nat
  hour : Nat
  minute : Nat
  second : Nat
  deriving DecidableEq, Repr

/-- Scalar Python values handled by the repositories: `None`, `int`,
`str`, `bool`, `datetime`, and enumeration members (carrying the member's
printable name and its underlying `.value`, a string in this code base). -/
inductive Scalar where
  | none
  | int (n : Int)
  | float (q : ℚ)
  | str (s : String)
  | bool (b : Bool)
  | dt (t : DateTime)
  | enumV (name : String) (value : String)
  deriving DecidableEq, Repr

/-- Python `str()` of a float (exact decimal rendering is only needed for
integral values in this code base). -/
def floatStr (q : ℚ) : String :=
  if q.den = 1 then toString q.num ++ ".0" else toString q

/-- A field value: a scalar or a (flat) list of scalars.  The records this
repository persists only ever store scalar lists (tags, genres, entries). -/
inductive Val where
  | scalar (s : Scalar)
  | list (xs : List Scalar)
  deriving DecidableEq, Repr

/-- Python exception classes raised by the embedded code. -/
inductive PyError where
  | typeError (msg : String)
  | valueError (msg : String)
  | attributeError (msg : String)
  | indexError (msg : String)
  | keyError (msg : String)
  | repoError (msg : String)
  | operationalError (msg : String)
  deriving DecidableEq, Repr

deriving instance DecidableEq for Except

/-- Zero-padded decimal rendering, as Python's `%02d`/`%04d` in
`datetime.isoformat`. -/
def padNum (width n : Nat) : String :=
  let s := toString n
  let pad := width - s.length
  String.mk (List.replicate pad '0') ++ s

/-- `datetime.isoformat()` on a naive datetime: `YYYY-MM-DDTHH:MM:SS`. -/
def DateTime.isoformat (t : DateTime) : String :=
  padNum 4 t.year ++ "-" ++ padNum 2 t.month ++ "-" ++ padNum 2 t.day ++ "T" ++
    padNum 2 t.hour ++ ":" ++ padNum 2 t.minute ++ ":" ++ padNum 2 t.second

/-- Lexicographic order on the six date-time components (Python's
`datetime < datetime`). -/
def DateTime.lt (a b : DateTime) : Bool :=
  if a.year ≠ b.year then a.year < b.year
  else if a.month ≠ b.month then a.month < b.month
  else if a.day ≠ b.day then a.day < b.day
  else if a.hour ≠ b.hour then a.hour < b.hour
  else if a.minute ≠ b.minute then a.minute < b.minute
  else a.second < b.second

/-- Python `==` on scalars: never raises; values of different types are
unequal, except that Python treats `bool` as an `int` subtype
(`True == 1`). -/
def scalarEq (a b : Scalar) : Bool :=
  match a, b with
  | .none, .none => true
  | .int x, .int y => x == y
  | .int x, .bool y => x == (if y then 1 else 0)
  | .bool x, .int y => (if x then 1 else 0 : Int) == y
  | .int x, .float y => (x : ℚ) == y
  | .float x, .int y => x == (y : ℚ)
  | .float x, .float y => x == y
  | .float x, .bool y => x == (if y then 1 else 0 : ℚ)
  | .bool x, .float y => (if x then 1 else 0 : ℚ) == y
  | .str x, .str y => x == y
  | .bool x, .bool y => x == y
  | .dt x, .dt y => x == y
  | .enumV nx vx, .enumV ny vy => nx == ny && vx == vy
  | _, _ => false

/-- Python `==` on values (lists compare element-wise). -/
def pyEq (a b : Val) : Bool :=
  match a, b with
  | .scalar x, .scalar y => scalarEq x y
  | .list xs, .list ys =>
      xs.length == ys.length && (List.zip xs ys).all (fun p => scalarEq p.1 p.2)
  | _, _ => false

/-- Python `<` on scalars.  Comparing `None`, an enumeration member, or
operands of unrelated types raises `TypeError`; `bool` participates as an
`int`. -/
def scalarLt (a b : Scalar) : Except PyError Bool :=
  match a, b with
  | .int x, .int y => .ok (x < y)
  | .int x, .bool y => .ok (x < (if y then 1 else 0))
  | .bool x, .int y => .ok ((if x then 1 else 0 : Int) < y)
  | .bool x, .bool y => .ok ((if x then 1 else 0 : Int) < (if y then 1 else 0))
  | .int x, .float y => .ok (decide ((x : ℚ) < y))
  | .float x, .int y => .ok (decide (x < (y : ℚ)))
  | .float x, .float y => .ok (decide (x < y))
  | .float x, .bool y => .ok (decide (x < (if y then 1 else 0 : ℚ)))
  | .bool x, .float y => .ok (decide ((if x then 1 else 0 : ℚ) < y))
  | .str x, .str y => .ok (decide (x < y))
  | .dt x, .dt y => .ok (x.lt y)
  | _, _ => .error (.typeError "unorderable operand types for comparison")

/-- Python `<` on lists: lexicographic, deciding at the first non-equal
pair; a strict prefix is smaller. -/
def listLt (xs ys : List Scalar) : Except PyError Bool :=
  match xs, ys with
  | [], [] => .ok false
  | [], _ :: _ => .ok true
  | _ :: _, [] => .ok false
  | x :: xs', y :: ys' =>
      if scalarEq x y then listLt xs' ys' else scalarLt x y

/-- Python `<` on values. -/
def pyLt (a b : Val) : Except PyError Bool :=
  match a, b with
  | .scalar x, .scalar y => scalarLt x y
  | .list xs, .list ys => listLt xs ys
  | _, _ => .error (.typeError "unorderable operand types for comparison")

/-- Python `<=` on values: `a <= b` is `a < b or a == b` for every type
appearing here. -/
def pyLe (a b : Val) : Except PyError Bool := do
  let l ← pyLt a b
  pure (l || pyEq a b)

/-- Python truthiness of a value (`if expected:` in the query builder). -/
def pyTruthy (v : Val) : Bool :=
  match v with
  | .scalar .none => false
  | .scalar (.int n) => n ≠ 0
  | .scalar (.float q) => q ≠ 0
  | .scalar (.str s) => s ≠ ""
  | .scalar (.bool b) => b
  | .scalar (.dt _) => true
  | .scalar (.enumV _ _) => true
  | .list xs => xs ≠ []

/-- Python `repr` of a scalar, used when rendering lists with `str`. -/
def scalarRepr (s : Scalar) : String :=
  match s with
  | .none => "None"
  | .int n => toString n
  | .float q => floatStr q
  | .str x => "'" ++ x ++ "'"
  | .bool b => if b then "True" else "False"
  | .dt t => "datetime(" ++ t.isoformat ++ ")"
  | .enumV n _ => n

/-- Python `str()` of a scalar. -/
def scalarStr (s : Scalar) : String :=
  match s with
  | .none => "None"
  | .int n => toString n
  | .float q => floatStr q
  | .str x => x
  | .bool b => if b then "True" else "False"
  | .dt t => t.isoformat
  | .enumV n _ => n

/-- Python `str()` of a value. -/
def pyStr (v : Val) : String :=
  match v with
  | .scalar s => scalarStr s
  | .list xs => "[" ++ String.intercalate ", " (xs.map scalarRepr) ++ "]"

/-- Whether the first character list is a pointwise initial segment of the
second. -/
def charsStart (n h : List Char) : Bool :=
  match n, h with
  | [], _ => true
  | _ :: _, [] => false
  | a :: n', b :: h' => a == b && charsStart n' h'

/-- Whether the first character list occurs contiguously inside the second. -/
def charsInfix (n h : List Char) : Bool :=
  match h with
  | [] => charsStart n []
  | _ :: h' => charsStart n h || charsInfix n h'

/-- Python `needle in haystack` for strings: substring containment. -/
def strContains (h n : String) : Bool :=
  charsInfix n.toList h.toList

/-- Python `s.startswith(p)`. -/
def strStarts (s p : String) : Bool :=
  charsStart p.toList s.toList

/-- Python `s.endswith(p)`. -/
def strEnds (s p : String) : Bool :=
  charsStart p.toList.reverse s.toList.reverse

/-- Fuel-bounded worker for `strSplitOn` (the fuel is the input length, so
it never runs out for a non-empty separator). -/
def splitCharsGo (sep : List Char) (fuel : Nat) (cs acc : List Char) :
    List (List Char) :=
  match fuel with
  | 0 => [acc.reverse ++ cs]
  | fuel' + 1 =>
      match cs with
      | [] => [acc.reverse]
      | c :: rest =>
          if charsStart sep cs then
            acc.reverse :: splitCharsGo sep fuel' (cs.drop sep.length) []
          else splitCharsGo sep fuel' rest (c :: acc)

/-- Python `s.split(sep)` for a non-empty separator. -/
def strSplitOn (s sep : String) : List String :=
  (splitCharsGo sep.toList (s.length + 1) s.toList []).map String.mk

/-- Python `needle in haystack`: substring test when the haystack is a
string (the needle must itself be a string, else `TypeError`), membership
via `==` when it is a list; any other haystack raises `TypeError`. -/
def pyIn (needle haystack : Val) : Except PyError Bool :=
  match haystack with
  | .scalar (.str h) =>
      match needle with
      | .scalar (.str n) => .ok (strContains h n)
      | _ => .error (.typeError "'in <string>' requires string as left operand")
  | .list xs => .ok (xs.any (fun x => pyEq needle (.scalar x)))
  | _ => .error (.typeError "argument is not iterable")

/-! ## Filter specification (`modules/repositories/abstract_repository.py`) -/

/-- The `FilterOp` enumeration from `abstract_repository.py`.  The Python
enum has exactly fourteen members (note: no `IS_NULL` member exists in the
code).  Because Python does not enforce the annotation, a caller can pass
any other value as the operator; the `unknown` constructor represents such
a value, which both `match` statements of the evaluator handle with their
`case _` arm. -/
inductive FilterOp where
  | eq | neq | lt | lte | gt | gte
  | inOp | notIn
  | contains | icontains
  | startsWith | istartsWith
  | endsWith | iendsWith
  | unknown (tok : String)
  deriving DecidableEq, Repr

/-- Printable token for an operator (Python renders the enum member or the
stray value in the error message). -/
def FilterOp.tokenStr : FilterOp → String
  | .eq => "FilterOp.EQ"
  | .neq => "FilterOp.NEQ"
  | .lt => "FilterOp.LT"
  | .lte => "FilterOp.LTE"
  | .gt => "FilterOp.GT"
  | .gte => "FilterOp.GTE"
  | .inOp => "FilterOp.IN"
  | .notIn => "FilterOp.NOT_IN"
  | .contains => "FilterOp.CONTAINS"
  | .icontains => "FilterOp.ICONTAINS"
  | .startsWith => "FilterOp.STARTS_WITH"
  | .istartsWith => "FilterOp.ISTARTS_WITH"
  | .endsWith => "FilterOp.ENDS_WITH"
  | .iendsWith => "FilterOp.IENDS_WITH"
  | .unknown tok => tok

/-- The `FilterQuery` dataclass: one predicate of a filter specification. -/
structure FilterQuery where
  column : String
  op : FilterOp
  value : Val
  deriving DecidableEq, Repr

/-- An entity (a pydantic record) as a field map in declaration order.  A
field explicitly set to `None` is stored as `Val.scalar .none`; a field
absent from the map corresponds to an attribute the object lacks. -/
abbrev Entity := List (String × Val)

/-- Python `getattr(entity, column, None)`: the field's value, or `None`
when the attribute is absent. -/
def getattrD (e : Entity) (a : String) : Val :=
  match e.lookup a with
  | some v => v
  | none => .scalar .none

/-- Two-argument `getattr(entity, column)`: raises `AttributeError` when
the attribute is absent. -/
def getattr2 (e : Entity) (a : String) : Except PyError Val :=
  match e.lookup a with
  | some v => .ok v
  | none => .error (.attributeError ("object has no attribute " ++ a))

/-! ## `FilterExpressionEvaluator`
(`libs/filter/filter_expression_evaluator.py`) -/

namespace FilterExpressionEvaluator

/-- `FilterExpressionEvaluator._compare(actual, expected, op)`.  Each arm
mirrors one `case` of the source's `match`; the `unknown` arm is the
source's `case _`, which raises `ValueError`. -/
def compareVals (actual expected : Val) (op : FilterOp) : Except PyError Bool :=
  match op with
  | .eq => .ok (pyEq actual expected)
  | .neq => .ok (!pyEq actual expected)
  | .lt => pyLt actual expected
  | .lte => pyLe actual expected
  | .gt => pyLt expected actual
  | .gte => pyLe expected actual
  | .contains => pyIn expected actual
  | .icontains => .ok (strContains (pyStr actual).toLower (pyStr expected).toLower)
  | .startsWith => .ok (strStarts (pyStr actual) (pyStr expected))
  | .istartsWith => .ok (strStarts (pyStr actual).toLower (pyStr expected).toLower)
  | .endsWith => .ok (strEnds (pyStr actual) (pyStr expected))
  | .iendsWith => .ok (strEnds (pyStr actual).toLower (pyStr expected).toLower)
  | .inOp => pyIn actual expected
  | .notIn => do
      let b ← pyIn actual expected
      pure (!b)
  | .unknown tok =>
      .error (.valueError ("Unsupported filter operator: " ++ tok))

/-- `FilterExpressionEvaluator.evaluate(entity, filters)`: conjunction of
the predicates, short-circuiting on the first non-match; a raise inside
`_compare` propagates. -/
def evaluate (entity : Entity) (filters : List FilterQuery) : Except PyError Bool :=
  match filters with
  | [] => .ok true
  | f :: rest => do
      let b ← compareVals (getattrD entity f.column) f.value f.op
      if b then evaluate entity rest else pure false

end FilterExpressionEvaluator

/-! ## SQL expression nodes

`smolorm/expressions.py` is not part of the provided sources (only its
callers are), so the expression node type is modelled from the spec. -/

/-- Modelled from the spec: `smolorm/expressions.py` (the `Expr` type and
the `col` builder) is missing from the sources.  Per spec §3 a SQL
Expression Node is "either a column reference, a literal, a binary
comparison, a containment/pattern test, or a boolean combinator (AND)";
per §4.5 the fluent builder offers the comparison, `LIKE`-pattern,
set-membership and `IS [NOT] NULL` forms used by
`filter_query_to_sql_query`.  One constructor is given per fluent method
invoked by the sources, each carrying its column name and argument. -/
inductive Expr where
  | containsP (c : String) (v : String)
  | startswithP (c : String) (v : Val)
  | endswithP (c : String) (v : Val)
  | inSet (c : String) (v : Val)
  | notInSet (c : String) (v : Val)
  | eqC (c : String) (v : Val)
  | neqC (c : String) (v : Val)
  | ltC (c : String) (v : Val)
  | leC (c : String) (v : Val)
  | gtC (c : String) (v : Val)
  | geC (c : String) (v : Val)
  | isNull (c : String)
  | isNotNull (c : String)
  | andE (a b : Expr)
  deriving DecidableEq, Repr

namespace FilterExpressionEvaluator

/-- Whether the comparison value is treated as null by the EQ/NEQ arms of
`filter_query_to_sql_query` (`value is None or value == "NULL" or value ==
"null"`). -/
def isNullLiteral (v : Val) : Bool :=
  pyEq v (.scalar .none) || pyEq v (.scalar (.str "NULL")) ||
    pyEq v (.scalar (.str "null"))

/-- `FilterExpressionEvaluator.filter_query_to_sql_query`: compiles one
predicate to an expression node; the `case _` arm raises `ValueError`. -/
def filterQueryToSqlQuery (f : FilterQuery) : Except PyError Expr :=
  match f.op with
  | .contains => .ok (.containsP f.column (pyStr f.value))
  | .icontains => .ok (.containsP f.column (pyStr f.value).toLower)
  | .startsWith => .ok (.startswithP f.column f.value)
  | .istartsWith =>
      .ok (.startswithP f.column (.scalar (.str (pyStr f.value).toLower)))
  | .endsWith => .ok (.endswithP f.column f.value)
  | .iendsWith =>
      .ok (.endswithP f.column (.scalar (.str (pyStr f.value).toLower)))
  | .inOp => .ok (.inSet f.column f.value)
  | .notIn => .ok (.notInSet f.column f.value)
  | .eq =>
      if isNullLiteral f.value then .ok (.isNull f.column)
      else .ok (.eqC f.column f.value)
  | .neq =>
      if isNullLiteral f.value then .ok (.isNotNull f.column)
      else .ok (.neqC f.column f.value)
  | .lt => .ok (.ltC f.column f.value)
  | .lte => .ok (.leC f.column f.value)
  | .gt => .ok (.gtC f.column f.value)
  | .gte => .ok (.geC f.column f.value)
  | .unknown tok =>
      .error (.valueError ("Unsupported operator: " ++ tok))

/-- `chain_filter_queries_to_sql_query`: compiles every predicate and
left-folds the nodes with `&`.  Python's `reduce` on an empty sequence
raises `TypeError`. -/
def chainFilterQueriesToSqlQuery (filters : List FilterQuery) :
    Except PyError Expr := do
  let exprs ← filters.mapM filterQueryToSqlQuery
  match exprs with
  | [] => .error (.typeError "reduce of empty iterable with no initial value")
  | e :: rest => .ok (rest.foldl Expr.andE e)

end FilterExpressionEvaluator

/-! ## Monadic list helpers (Python list comprehensions and `list.sort`) -/

/-- A Python list comprehension `[x for x in xs if p(x)]`: the predicate is
applied in order and its first raise propagates. -/
def listFilterM {α : Type} (p : α → Except PyError Bool) :
    List α → Except PyError (List α)
  | [] => .ok []
  | x :: xs => do
      let b ← p x
      let rest ← listFilterM p xs
      pure (if b then x :: rest else rest)

/-- Insert into an already sorted list, after every element strictly
smaller than `x` and before the first other element, which keeps the sort
stable. -/
def insertSortedM {α : Type} (ltc : α → α → Except PyError Bool) (x : α) :
    List α → Except PyError (List α)
  | [] => .ok [x]
  | y :: ys => do
      let b ← ltc y x
      if b then do
        let r ← insertSortedM ltc x ys
        pure (y :: r)
      else pure (x :: y :: ys)

/-- Stable sort by a strict-order comparison that may raise, modelling
Python's stable `list.sort` (ties keep their original order; a `TypeError`
from comparing keys propagates). -/
def sortListM {α : Type} (ltc : α → α → Except PyError Bool) :
    List α → Except PyError (List α)
  | [] => .ok []
  | x :: xs => do
      let s ← sortListM ltc xs
      insertSortedM ltc x s

/-! ## Pagination pipeline shared by the repository `filter` bodies -/

/-- The `PaginatedResult` pydantic model from `abstract_repository.py`. -/
structure PaginatedResult where
  result : List Entity
  total : Nat
  has_next : Bool
  next_cursor : Option String
  deriving DecidableEq, Repr

/-- Whether a field value is Python `None` (`is None`). -/
def isNoneV (v : Val) : Bool :=
  match v with
  | .scalar .none => true
  | _ => false

/-- The sort key comparison `key=lambda x: getattr(x, order_by)` under
Python's `<`. -/
def entKeyLt (ob : String) (a b : Entity) : Except PyError Bool := do
  let ka ← getattr2 a ob
  let kb ← getattr2 b ob
  pyLt ka kb

/-- The ordering stage of `InMemoryRepository.filter` (and of the
identical `SmolORMRepository.filter`): when `order_by` is truthy, drop the
records whose attribute is `None` or absent ("remove unsortables"), then
stable-sort by that attribute, descending when requested. -/
def orderStage (order_by : Option String) (descending : Bool)
    (items : List Entity) : Except PyError (List Entity) :=
  match order_by with
  | none => .ok items
  | some ob =>
      if ob = "" then .ok items
      else
        let kept := items.filter (fun e => !isNoneV (getattrD e ob))
        sortListM
          (fun a b => if descending then entKeyLt ob b a else entKeyLt ob a b)
          kept

/-- The cursor stage: when a cursor is given, find the first record whose
`id` equals (`==`) the cursor and keep the records strictly after it; when
no record matches, the `StopIteration` handler empties the list. -/
def cursorStage (cursor : Option Val) (items : List Entity) : List Entity :=
  match cursor with
  | none => items
  | some cv =>
      match items.findIdx? (fun e => pyEq (getattrD e "id") cv) with
      | some i => items.drop (i + 1)
      | none => []

/-- The offset stage: `if offset: items = items[offset:]` (an offset of
`0` is falsy and skips the slice, which is also a no-op). -/
def offsetStage (offset : Option Nat) (items : List Entity) : List Entity :=
  match offset with
  | some o => if o = 0 then items else items.drop o
  | none => items

/-- The limit stage as written in `InMemoryRepository.filter` (and
`SmolORMRepository.filter`): computes `has_next`, truncates, and when
`has_next` holds renders `next_cursor` as `str(getattr(items[-1], "id"))`;
`items[-1]` on an empty truncation raises `IndexError`. -/
def limitStageInMemory (limit : Option Nat) (items : List Entity) :
    Except PyError (Bool × Option String × List Entity) :=
  match limit with
  | none => .ok (false, none, items)
  | some l =>
      let hasNext := decide (items.length > l)
      let items' := items.take l
      if hasNext then
        match items'.getLast? with
        | some e => do
            let idv ← getattr2 e "id"
            .ok (true, some (pyStr idv), items')
        | none => .error (.indexError "list index out of range")
      else .ok (false, none, items')

/-- The body of `InMemoryRepository.filter` (lines 99-146) applied to an
already materialised record list.  `SmolORMRepository.filter` (lines
178-225) has a literally identical body, so both embeddings share this
definition, differing only in the record list passed in. -/
def filterFromStore (stored : List Entity) (filters : List FilterQuery)
    (order_by : Option String) (descending : Bool)
    (limit offset : Option Nat) (cursor : Option Val) :
    Except PyError PaginatedResult := do
  let items ← listFilterM
    (fun e => FilterExpressionEvaluator.evaluate e filters) stored
  let items ← orderStage order_by descending items
  let items := cursorStage cursor items
  let total := items.length
  let items := offsetStage offset items
  let r ← limitStageInMemory limit items
  pure ⟨r.2.2, total, r.1, r.2.1⟩

/-! ## `InMemoryRepository` (`modules/repositories/in_memory_repository.py`) -/

/-- Python dict assignment `m[k] = v` on an insertion-ordered map. -/
def storeSet {κ : Type} [DecidableEq κ] (store : List (κ × Entity)) (k : κ)
    (v : Entity) : List (κ × Entity) :=
  match store with
  | [] => [(k, v)]
  | (k', v') :: rest =>
      if k' = k then (k, v) :: rest else (k', v') :: storeSet rest k v

/-- Python dict assignment `d[k] = v` for string-keyed field maps. -/
def setKey (d : List (String × Val)) (k : String) (v : Val) :
    List (String × Val) :=
  if (d.lookup k).isSome then
    d.map (fun p => if p.1 = k then (p.1, v) else p)
  else d ++ [(k, v)]

/-- Pydantic `model_copy(update=patch)`: existing fields are replaced by
the patch, unknown patch keys are added. -/
def modelCopy (e : Entity) (patch : List (String × Val)) : Entity :=
  let updated := e.map (fun p =>
    match patch.lookup p.1 with
    | some w => (p.1, w)
    | none => p)
  updated ++ patch.filter (fun q => (e.lookup q.1).isNone)

/-- Python `del d[k]`: raises `KeyError` when the key is absent. -/
def delKey (e : Entity) (k : String) : Except PyError Entity :=
  if (e.lookup k).isSome then .ok (e.filter (fun p => p.1 ≠ k))
  else .error (.keyError k)

/-- The id-keyed in-memory store and its id counter. -/
structure InMemoryRepo where
  store : List (Nat × Entity)
  nextId : Nat
  deriving DecidableEq, Repr

def emptyInMemoryRepo : InMemoryRepo := ⟨[], 1⟩

/-- `InMemoryRepository.create`: assigns `id`, `created_at`, `updated_at`
via `model_copy`, stores the record under `_next_id`, and increments the
counter.  `datetime.now()` is passed in explicitly as `now`. -/
def InMemoryRepo.create (r : InMemoryRepo) (now : DateTime)
    (entity : Entity) : Entity × InMemoryRepo :=
  let e := modelCopy entity
    [("id", .scalar (.int (r.nextId : Int))),
     ("created_at", .scalar (.dt now)),
     ("updated_at", .scalar (.dt now))]
  (e, ⟨storeSet r.store r.nextId e, r.nextId + 1⟩)

/-- `InMemoryRepository.update`: raises when the id is absent, stamps
`updated_at` into the patch dict, merges the patch with `model_copy`, and
stores the result. -/
def InMemoryRepo.update (r : InMemoryRepo) (now : DateTime) (entityId : Nat)
    (patch : List (String × Val)) : Except PyError (Entity × InMemoryRepo) :=
  match r.store.lookup entityId with
  | none => .error (.repoError "Entity with id not found.")
  | some existing =>
      let patch' := setKey patch "updated_at" (.scalar (.dt now))
      let updated := modelCopy existing patch'
      .ok (updated, ⟨storeSet r.store entityId updated, r.nextId⟩)

/-- `InMemoryRepository.filter`: evaluator-based matching over the store's
values followed by the shared pagination pipeline. -/
def InMemoryRepo.filter (r : InMemoryRepo) (filters : List FilterQuery)
    (order_by : Option String) (descending : Bool)
    (limit offset : Option Nat) (cursor : Option Val) :
    Except PyError PaginatedResult :=
  filterFromStore (r.store.map Prod.snd) filters order_by descending limit
    offset cursor

/-! ## Relational value codec and `SmolORMRepository`
(`modules/repositories/smol_sql_repository.py`) -/

/-- `json.dumps` of one list element; datetimes and enum members are not
JSON serializable and raise `TypeError`.  String escaping is not modelled
(none of the stored strings need it). -/
def jsonScalar (s : Scalar) : Except PyError String :=
  match s with
  | .none => .ok "null"
  | .int n => .ok (toString n)
  | .float q => .ok (floatStr q)
  | .str x => .ok ("\"" ++ x ++ "\"")
  | .bool b => .ok (if b then "true" else "false")
  | .dt _ => .error (.typeError "Object of type datetime is not JSON serializable")
  | .enumV _ _ => .error (.typeError "Object of type Enum is not JSON serializable")

/-- `json.dumps` of a flat list. -/
def jsonDumpsList (xs : List Scalar) : Except PyError String := do
  let parts ← xs.mapM jsonScalar
  pure ("[" ++ String.intercalate ", " parts ++ "]")

def skipWs : List Char → List Char
  | ' ' :: rest => skipWs rest
  | cs => cs

def digitsToNat (ds : List Char) : Nat :=
  ds.foldl (fun a c => a * 10 + (c.toNat - 48)) 0

/-- Parse one JSON scalar from the front of a character list. -/
def parseJsonScalar (cs : List Char) : Except PyError (Scalar × List Char) :=
  match cs with
  | '"' :: rest =>
      let content := rest.takeWhile (fun c => c ≠ '"')
      (match rest.drop content.length with
       | '"' :: rest2 => .ok (.str (String.mk content), rest2)
       | _ => .error (.valueError "Unterminated string"))
  | 'n' :: 'u' :: 'l' :: 'l' :: rest => .ok (.none, rest)
  | 't' :: 'r' :: 'u' :: 'e' :: rest => .ok (.bool true, rest)
  | 'f' :: 'a' :: 'l' :: 's' :: 'e' :: rest => .ok (.bool false, rest)
  | '-' :: rest =>
      let ds := rest.takeWhile Char.isDigit
      if ds.isEmpty then .error (.valueError "Expecting value")
      else .ok (.int (-(digitsToNat ds : Int)), rest.drop ds.length)
  | c :: rest =>
      if c.isDigit then
        let ds := (c :: rest).takeWhile Char.isDigit
        .ok (.int (digitsToNat ds), (c :: rest).drop ds.length)
      else .error (.valueError "Expecting value")
  | [] => .error (.valueError "Expecting value")

/-- Parse the comma-separated items of a JSON array (fuel-bounded by the
input length). -/
def parseJsonItems (fuel : Nat) (cs : List Char) (acc : List Scalar) :
    Except PyError (List Scalar × List Char) :=
  match fuel with
  | 0 => .error (.valueError "Expecting value")
  | fuel' + 1 => do
      let (s, rest) ← parseJsonScalar (skipWs cs)
      match skipWs rest with
      | ',' :: rest2 => parseJsonItems fuel' rest2 (acc ++ [s])
      | ']' :: rest2 => .ok (acc ++ [s], rest2)
      | _ => .error (.valueError "Expecting delimiter")

/-- `json.loads` restricted to the flat arrays this code base stores;
anything else raises (a `ValueError` subclass in Python). -/
def jsonLoadsList (s : String) : Except PyError (List Scalar) :=
  match skipWs s.toList with
  | '[' :: rest =>
      (match skipWs rest with
       | ']' :: rem =>
           if (skipWs rem).isEmpty then .ok []
           else .error (.valueError "Extra data")
       | _ => do
           let (xs, rem) ← parseJsonItems s.length rest []
           if (skipWs rem).isEmpty then .ok xs
           else .error (.valueError "Extra data"))
  | _ => .error (.valueError "Expecting value")

def parseNatDigits (cs : List Char) : Option Nat :=
  if !cs.isEmpty && cs.all Char.isDigit then some (digitsToNat cs) else none

/-- `datetime.fromisoformat` on the `YYYY-MM-DDTHH:MM:SS` strings this
code base produces; anything else raises `ValueError`.  (A trailing `Z`
is not accepted, matching the strings handled in this repository.) -/
def fromisoformat (s : String) : Except PyError DateTime :=
  match strSplitOn s "T" with
  | [d, t] =>
      (match strSplitOn d "-", strSplitOn t ":" with
       | [y, mo, da], [h, mi, se] =>
           (match parseNatDigits y.toList, parseNatDigits mo.toList,
                  parseNatDigits da.toList, parseNatDigits h.toList,
                  parseNatDigits mi.toList, parseNatDigits se.toList with
            | some yy, some mm, some dd, some hh, some mii, some ss =>
                .ok ⟨yy, mm, dd, hh, mii, ss⟩
            | _, _, _, _, _, _ =>
                .error (.valueError ("Invalid isoformat string: " ++ s)))
       | _, _ => .error (.valueError ("Invalid isoformat string: " ++ s)))
  | _ => .error (.valueError ("Invalid isoformat string: " ++ s))

/-- `serialize` (smol_sql_repository.py lines 20-27): lists become JSON
text, datetimes become ISO-8601 text, everything else is untouched. -/
def serialize (entity : Entity) : Except PyError Entity :=
  entity.mapM (fun p =>
    match p.2 with
    | .list xs => do
        let s ← jsonDumpsList xs
        pure (p.1, Val.scalar (.str s))
    | .scalar (.dt t) => pure (p.1, Val.scalar (.str t.isoformat))
    | _ => pure p)

/-- `deserialize` (smol_sql_repository.py lines 30-37): strings that start
with `[` and end with `]` are JSON-decoded; strings that end with `Z` are
parsed as datetimes; everything else is untouched. -/
def deserialize (entity : Entity) : Except PyError Entity :=
  entity.mapM (fun p =>
    match p.2 with
    | .scalar (.str s) =>
        if strStarts s "[" && strEnds s "]" then do
          let xs ← jsonLoadsList s
          pure (p.1, Val.list xs)
        else if strEnds s "Z" then do
          let t ← fromisoformat s
          pure (p.1, Val.scalar (.dt t))
        else pure p
    | _ => pure p)

/-- The `SmolORMRepository` state: the relational table the SQL engine
holds (which, since `create` always raises — see `ormCreateMisbound` —
can only be populated outside the repository contract, e.g. by seeding
the engine directly), the engine's AUTOINCREMENT counter, and the
`_store` dict that `__init__` creates and **no method of the class ever
writes to** (`filter`, `exists` and `count` read it nonetheless). -/
structure SmolRepo where
  store : List (Nat × Entity)
  table : List Entity
  sqlNextId : Nat
  deriving DecidableEq, Repr

def emptySmolRepo : SmolRepo := ⟨[], [], 1⟩

/-- `ORM.from_(table).create(fields)` as `SqlModel.create` invokes it:
`ORM.create` is a `@classmethod`, so the call through the `from_` instance
binds `cls` to the class and the fields dict to the `table_name`
parameter, leaving `fields = None`; the method then takes the
`fields is None` branch and executes the malformed statement
`INSERT INTO <dict repr> `, which the SQL engine rejects (sqlite:
`near "{": syntax error`, raised by `connection.execute` with no
`try`/`except` around it).  Even disregarding the raise, `ORM.create`
returns `None`, so `SqlModel.create`'s re-select by `row_id` would yield
`[]` and raise `SmolORMException("Failed to create …")`. -/
def ormCreateMisbound (fields : Entity) : Except PyError Nat :=
  let _ := fields
  .error (.operationalError "near \x7b: syntax error")

/-- `SmolORMRepository.create`: stamps timestamps, dumps the model,
deletes the `id` key, serializes, then calls `SqlModel.create`, whose
`ORM.from_(table).create(fields)` raises (see `ormCreateMisbound`); the
re-select/deserialize continuation of `SqlModel.create` is unreachable
(and would itself raise `Failed to create`, since `ORM.create` returns
`None` as the row id).  `create` therefore never succeeds. -/
def SmolRepo.create (r : SmolRepo) (now : DateTime) (entity : Entity) :
    Except PyError (Entity × SmolRepo) := do
  let _ := r
  let e := modelCopy entity
    [("created_at", .scalar (.dt now)), ("updated_at", .scalar (.dt now))]
  let dumped ← delKey e "id"
  let ser ← serialize dumped
  let _rowId ← ormCreateMisbound ser
  .error (.repoError "Failed to create")

/-- `SmolORMRepository.filter` (lines 178-225): its body is identical to
`InMemoryRepository.filter` and reads `self._store.values()` — not the SQL
table that `create`/`update`/`delete` operate on. -/
def SmolRepo.filter (r : SmolRepo) (filters : List FilterQuery)
    (order_by : Option String) (descending : Bool)
    (limit offset : Option Nat) (cursor : Option Val) :
    Except PyError PaginatedResult :=
  filterFromStore (r.store.map Prod.snd) filters order_by descending limit
    offset cursor

/-! ## TinyDB query builder
(`modules/repositories/utils/tinydb_query_builder.py`)

A stored document is an `Entity`; a field present with value `None` is a
`(key, Val.scalar .none)` pair, an absent field has no pair.  A compiled
TinyDB condition is a test on a document that may raise (TinyDB's
`.test(lambda …)` runs the lambda during `search`, so a raise inside it
propagates out of `search`). -/

/-- A compiled TinyDB query condition. -/
abbrev TinyQuery := Entity → Except PyError Bool

/-- TinyDB `Query()[attr].exists()`: true when the key resolves in the
document, whatever its value (the TinyDB library resolves a key stored
with value `None`; the builder's own comment asserts a stricter
"present and non-null" reading, which is not what the library does —
no claim settled here depends on the difference). -/
def qExists (attr : String) (d : Entity) : Bool :=
  (d.lookup attr).isSome

/-- TinyDB `where(attr) == v`: an unresolvable key never matches. -/
def qEqCond (attr : String) (v : Val) : TinyQuery := fun d =>
  .ok (match d.lookup attr with
       | some dv => pyEq dv v
       | none => false)

/-- TinyDB `where(attr) != v`: an unresolvable key never matches. -/
def qNeqCond (attr : String) (v : Val) : TinyQuery := fun d =>
  .ok (match d.lookup attr with
       | some dv => !pyEq dv v
       | none => false)

/-- TinyDB `where(attr).test(f)`: resolve the key and run the test;
an unresolvable key never matches. -/
def qTest (attr : String) (f : Val → Except PyError Bool) : TinyQuery :=
  fun d =>
    match d.lookup attr with
    | some dv => f dv
    | none => .ok false

/-- TinyDB `&`: conjunction with Python's short-circuiting `and`. -/
def qAnd (q1 q2 : TinyQuery) : TinyQuery := fun d => do
  let b ← q1 d
  if b then q2 d else pure false

/-- The `expected_for_query` normalisation: datetimes become ISO strings,
enum members become their underlying value. -/
def normalizeExpected (v : Val) : Val :=
  match v with
  | .scalar (.dt t) => .scalar (.str t.isoformat)
  | .scalar (.enumV _ value) => .scalar (.str value)
  | _ => v

/-- One arm of the `match op` in
`TinyDBQueryBuilder.build_tinydb_query`; `in`/`notin` on a non-list value
and unknown operator tokens raise `ValueError` at build time. -/
def buildCondition (attr op : String) (expected : Val) :
    Except PyError TinyQuery :=
  let efq := normalizeExpected expected
  match op with
  | "eq" => .ok (qEqCond attr efq)
  | "neq" => .ok (qNeqCond attr efq)
  | "lt" => .ok (qTest attr (fun v =>
      if isNoneV v then .ok false else pyLt v efq))
  | "lte" => .ok (qTest attr (fun v =>
      if isNoneV v then .ok false else pyLe v efq))
  | "gt" => .ok (qTest attr (fun v =>
      if isNoneV v then .ok false else pyLt efq v))
  | "gte" => .ok (qTest attr (fun v =>
      if isNoneV v then .ok false else pyLe efq v))
  | "isnull" =>
      if pyTruthy expected then .ok (fun d => .ok (!qExists attr d))
      else .ok (fun d => .ok (qExists attr d))
  | "in" =>
      (match expected with
       | .list _ => .ok (qTest attr (fun v => pyIn v expected))
       | _ => .error (.valueError
           "For 'in' operator, expected value must be a list or tuple."))
  | "notin" =>
      (match expected with
       | .list _ => .ok (qTest attr (fun v => do
           let b ← pyIn v expected
           pure (!b)))
       | _ => .error (.valueError
           "For 'notin' operator, expected value must be a list or tuple."))
  | "contains" => .ok (qTest attr (fun v =>
      match v with
      | .scalar (.str _) => pyIn expected v
      | .list _ => pyIn expected v
      | _ => .ok false))
  | "icontains" => .ok (qTest attr (fun v =>
      match v with
      | .scalar (.str h) =>
          .ok (strContains h.toLower (pyStr expected).toLower)
      | _ => .ok false))
  | "startswith" => .ok (qTest attr (fun v =>
      match v with
      | .scalar (.str h) => .ok (strStarts h (pyStr expected))
      | _ => .ok false))
  | "istartswith" => .ok (qTest attr (fun v =>
      match v with
      | .scalar (.str h) =>
          .ok (strStarts h.toLower (pyStr expected).toLower)
      | _ => .ok false))
  | "endswith" => .ok (qTest attr (fun v =>
      match v with
      | .scalar (.str h) => .ok (strEnds h (pyStr expected))
      | _ => .ok false))
  | "iendswith" => .ok (qTest attr (fun v =>
      match v with
      | .scalar (.str h) =>
          .ok (strEnds h.toLower (pyStr expected).toLower)
      | _ => .ok false))
  | _ => .error (.valueError ("Unsupported filter operator: " ++ op))

/-- `TinyDBQueryBuilder.build_tinydb_query`: split each key on `__` into
attribute and operator token (defaulting to `eq`), build one condition per
entry, and left-fold them with `&`; no entries yields `Query().noop()`. -/
def buildTinydbQuery (filters : List (String × Val)) :
    Except PyError TinyQuery := do
  let conds ← filters.mapM (fun p => do
    let parts := strSplitOn p.1 "__"
    let attr := parts.headD ""
    let op := match parts.get? 1 with
      | some o => o
      | none => "eq"
    buildCondition attr op p.2)
  match conds with
  | [] => pure (fun _ => .ok true)
  | c :: rest => pure (rest.foldl qAnd c)

/-! ## `TinyDBRepository` (`modules/repositories/tinydb_repository.py`) -/

/-- `table.search(query)`: apply the compiled condition to every stored
document; a raise inside a `.test` lambda propagates. -/
def searchM (table : List Entity) (q : TinyQuery) :
    Except PyError (List Entity) :=
  listFilterM q table

/-- `TinyDBRepository._dict_to_entity`: strings stored under a key ending
in `_at` are parsed as ISO datetimes, kept as strings when parsing fails;
pydantic validation of the (schemaless) field map itself is the
identity. -/
def dictToEntity (d : Entity) : Entity :=
  d.map (fun p =>
    match p.2 with
    | .scalar (.str s) =>
        if strEnds p.1 "_at" then
          match fromisoformat s with
          | .ok t => (p.1, Val.scalar (.dt t))
          | .error _ => p
        else p
    | _ => p)

/-- `TinyDBRepository._dicts_to_entities`: converts each document,
skipping falsy (empty) ones. -/
def dictsToEntities (ds : List Entity) : List Entity :=
  (ds.filter (fun d => !d.isEmpty)).map dictToEntity

/-- `FilterExpressionEvaluator.evaluate(entity, filters)` as invoked by
`TinyDBRepository._match_filters_fallback`, which passes the repository's
token-keyed **dict** where `evaluate` expects a list of `FilterQuery`
objects: iterating the dict yields its string keys, and the first access
`f.column` on a string raises `AttributeError`; an empty dict runs the
loop zero times and returns `True`. -/
def evaluateDictArg (filters : List (String × Val)) : Except PyError Bool :=
  match filters with
  | [] => .ok true
  | _ :: _ => .error
      (.attributeError "'str' object has no attribute 'column'")

/-- The `try` branch of `TinyDBRepository.filter`: compile the filters (or
take all documents when there are none), search, and convert the raw
documents to entities. -/
def tinydbTryMatch (table : List Entity) (filters : List (String × Val)) :
    Except PyError (List Entity) := do
  let raw ←
    if filters.isEmpty then pure table
    else do
      let q ← buildTinydbQuery filters
      searchM table q
  pure (dictsToEntities raw)

/-- The matching stage of `TinyDBRepository.filter`: any exception raised
while compiling or searching is caught, logged, and the call falls back to
`list_all()` plus `_match_filters_fallback` over every entity. -/
def tinydbMatch (table : List Entity) (filters : List (String × Val)) :
    Except PyError (List Entity) :=
  match tinydbTryMatch table filters with
  | .ok items => .ok items
  | .error _ =>
      listFilterM (fun _ => evaluateDictArg filters) (dictsToEntities table)

/-- The ordering stage of `TinyDBRepository.filter`: guarded by
`if order_by and items:` (unlike the in-memory variant, an empty item list
skips the stage). -/
def orderStageTinydb (order_by : Option String) (descending : Bool)
    (items : List Entity) : Except PyError (List Entity) :=
  match order_by with
  | none => .ok items
  | some ob =>
      if ob = "" || items.isEmpty then .ok items
      else
        let kept := items.filter (fun e => !isNoneV (getattrD e ob))
        sortListM
          (fun a b => if descending then entKeyLt ob b a else entKeyLt ob a b)
          kept

/-- The limit stage of `TinyDBRepository.filter`: as the in-memory one but
guarded by `if has_next and items:` before reading `items[-1]`. -/
def limitStageTinydb (limit : Option Nat) (items : List Entity) :
    Except PyError (Bool × Option String × List Entity) :=
  match limit with
  | none => .ok (false, none, items)
  | some l =>
      let hasNext := decide (items.length > l)
      let items' := items.take l
      if hasNext && !items'.isEmpty then
        match items'.getLast? with
        | some e => do
            let idv ← getattr2 e "id"
            .ok (true, some (pyStr idv), items')
        | none => .ok (hasNext, none, items')
      else .ok (hasNext, none, items')

/-- `TinyDBRepository.filter` (lines 241-315). -/
def tinydbFilter (table : List Entity) (filters : List (String × Val))
    (order_by : Option String) (descending : Bool)
    (limit offset : Option Nat) (cursor : Option Val) :
    Except PyError PaginatedResult := do
  let items ← tinydbMatch table filters
  let items ← orderStageTinydb order_by descending items
  let items := cursorStage cursor items
  let total := items.length
  let items := offsetStage offset items
  let r ← limitStageTinydb limit items
  pure ⟨r.2.2, total, r.1, r.2.1⟩

/-- `TinyDBRepository.atomic` (lines 317-329): snapshot the table, run the
scope's body, and on any exception truncate the table, re-insert every
snapshotted document in order, and re-raise.  Returns the scope's outcome
together with the table state after the scope. -/
def tinydbAtomic (table : List Entity)
    (body : List Entity → Except PyError (List Entity)) :
    Except PyError (List Entity) × List Entity :=
  let backup := table
  match body table with
  | .ok t' => (.ok t', t')
  | .error e =>
      let restored := backup.foldl (fun acc d => acc ++ [d]) []
      (.error e, restored)

/-! ## Schema synthesis (`smolorm/sqlmodel.py`, `SqlModel.__init_subclass__`)

A subclass's `cls.__dict__` maps attribute names either to `SmolField`
instances (`TextField`, `IntField`, `RealField`, `DatetimeField` — the
four classes `sqlmodel.py` defines) or to plain Python values (the style
used by `smolorm/tests`). -/

/-- The four `SmolField` subclasses defined in `sqlmodel.py`. -/
inductive FieldKind where
  | textField | intField | realField | datetimeField
  deriving DecidableEq, Repr

def FieldKind.clsName : FieldKind → String
  | .textField => "TextField"
  | .intField => "IntField"
  | .realField => "RealField"
  | .datetimeField => "DatetimeField"

/-- A class attribute: a `SmolField` instance carrying its
`default_value`, or a plain value. -/
inductive ClassAttr where
  | field (k : FieldKind) (defaultValue : Val)
  | raw (v : Val)
  deriving DecidableEq, Repr

def isSmolField : ClassAttr → Bool
  | .field _ _ => true
  | .raw _ => false

/-- `SqlModel._get_coldefs`: keep only the attributes that are `SmolField`
instances; raise `SmolORMException` when none remain. -/
def getColdefs (attrs : List (String × ClassAttr)) :
    Except PyError (List (String × ClassAttr)) :=
  let cols := attrs.filter (fun p => isSmolField p.2)
  if cols.isEmpty then .error (.repoError "No columns defined")
  else .ok cols

/-- The column-affinity `if`/`elif` chain of `__init_subclass__`: the
first test inspects `val` for `TextField`, every `elif` inspects
`cls.__dict__[key]` — which is the same object the loop is iterating — for
the plain Python types; a `SmolField` other than `TextField` therefore
matches no branch and gets no affinity token.  (`isinstance(x, int)` is
true for Python bools.) -/
def affinity (val : ClassAttr) : String :=
  match val with
  | .field .textField _ => "TEXT"
  | .raw (.scalar (.int _)) => "INT"
  | .raw (.scalar (.bool _)) => "INT"
  | .raw (.scalar (.float _)) => "REAL"
  | .raw (.list _) => "TEXT"
  | .raw (.scalar (.enumV _ _)) => "TEXT"
  | .raw (.scalar (.dt _)) => "TEXT"
  | _ => ""

/-- The `f"{val}"` rendering of a field object: Python prints
`<smolorm.sqlmodel.TextField object at 0x…>`; the module path and address
are omitted here — what matters is that it is the object's repr, not the
field's default value. -/
def fieldObjectRepr (k : FieldKind) : String :=
  "<" ++ k.clsName ++ " object>"

/-- `[x.value for x in val]` over a list whose first element is an enum
member: a non-enum later element raises `AttributeError`. -/
def enumListValues (xs : List Scalar) : Except PyError (List Scalar) :=
  xs.mapM (fun x =>
    match x with
    | .enumV _ v => .ok (.str v)
    | _ => .error (.attributeError "object has no attribute value"))

/-- One iteration of the column loop in `__init_subclass__`: the column
name, the affinity chain, then the `DEFAULT` block.  `val is not None`
only fails for a plain `None` attribute; a `SmolField` instance passes it
and matches none of the `isinstance` rewrites, so the f-string renders the
object itself.  An empty plain-list default appends `", "` and
`continue`s, skipping the `DEFAULT` clause. -/
def colClause (key : String) (val : ClassAttr) : Except PyError String := do
  let s := key ++ " " ++ affinity val
  match val with
  | .raw (.scalar .none) => pure (s ++ ", ")
  | .raw (.scalar (.str x)) =>
      pure (s ++ " DEFAULT \"" ++ x ++ "\", ")
  | .raw (.scalar (.int n)) =>
      pure (s ++ " DEFAULT " ++ toString n ++ ", ")
  | .raw (.scalar (.bool b)) =>
      pure (s ++ " DEFAULT " ++ (if b then "True" else "False") ++ ", ")
  | .raw (.scalar (.float q)) =>
      pure (s ++ " DEFAULT " ++ floatStr q ++ ", ")
  | .raw (.scalar (.enumV _ v)) =>
      pure (s ++ " DEFAULT \"" ++ v ++ "\", ")
  | .raw (.scalar (.dt t)) =>
      pure (s ++ " DEFAULT \"" ++ t.isoformat ++ "\", ")
  | .raw (.list xs) =>
      (match xs with
       | [] => pure (s ++ ", ")
       | first :: _ => do
           let rendered ←
             (match first with
              | .enumV _ _ => do
                  let vs ← enumListValues xs
                  jsonDumpsList vs
              | _ => jsonDumpsList xs)
           pure (s ++ " DEFAULT " ++ rendered ++ ", "))
  | .field k _ =>
      pure (s ++ " DEFAULT " ++ fieldObjectRepr k ++ ", ")

/-- Python `str.rstrip(", ")`: strip every trailing comma or space. -/
def rstripCommaSpace (s : String) : String :=
  String.mk ((s.toList.reverse.dropWhile (fun c => c = ',' || c = ' ')).reverse)

/-- The `CREATE TABLE` statement built by `SqlModel.__init_subclass__`
(lines 85-143): fixed `id`/timestamp columns, one clause per collected
column definition, trailing `", "` stripped, closed with `");"`. -/
def initSubclassQuery (tableName : String)
    (attrs : List (String × ClassAttr)) : Except PyError String := do
  let columns ← getColdefs attrs
  let base := "CREATE TABLE IF NOT EXISTS " ++ tableName ++ " (" ++
    "id INTEGER PRIMARY KEY AUTOINCREMENT, " ++ "created_at TEXT, " ++
    "updated_at TEXT, " ++ "deleted_at TEXT, "
  let body ← columns.foldlM (fun acc p => do
      let c ← colClause p.1 p.2
      pure (acc ++ c)) base
  pure (rstripCommaSpace body ++ ");")

/-! ## Shared concrete data for the claim theorems -/

/-- A fresh domain record, as pydantic constructs it before `create`:
every declared field present, unassigned ones `None`. -/
def mkRecord (name : String) : Entity :=
  [("id", Val.scalar .none), ("name", Val.scalar (.str name)),
   ("created_at", Val.scalar .none), ("updated_at", Val.scalar .none),
   ("deleted_at", Val.scalar .none)]

def now0 : DateTime := ⟨2024, 1, 1, 0, 0, 0⟩

/-- Five records created in a fresh in-memory repository (ids 1..5). -/
def repo5 : InMemoryRepo :=
  ["A", "B", "C", "D", "E"].foldl
    (fun r n => (r.create now0 (mkRecord n)).2) emptyInMemoryRepo

/-- The record ids of a page. -/
def resultIds (p : PaginatedResult) : List Val :=
  p.result.map (fun e => getattrD e "id")

/-! ## Reduction helpers -/

theorem except_bind_ok {ε α β : Type} (a : α) (f : α → Except ε β) :
    (Except.ok a >>= f) = f a := rfl

theorem except_bind_error {ε α β : Type} (e : ε) (f : α → Except ε β) :
    ((Except.error e : Except ε α) >>= f) = Except.error e := rfl

theorem except_pure_eq_ok {ε α : Type} (a : α) :
    (pure a : Except ε α) = Except.ok a := rfl

/-- A bind whose continuation never succeeds never succeeds. -/
theorem except_bind_isOk_false {ε α β : Type} (x : Except ε α)
    (f : α → Except ε β) (hf : ∀ a, (f a).isOk = false) :
    (x >>= f).isOk = false := by
  cases x with
  | error e => rfl
  | ok a => exact hf a

/-- Each pipeline stage maps an empty record list to an empty output. -/
theorem orderStage_nil (ob : Option String) (desc : Bool) :
    orderStage ob desc [] = .ok [] := by
  cases ob with
  | none => rfl
  | some s =>
      simp only [orderStage]
      split <;> rfl

theorem cursorStage_nil (cur : Option Val) : cursorStage cur [] = [] := by
  cases cur with
  | none => rfl
  | some cv => simp [cursorStage]

theorem offsetStage_nil (off : Option Nat) : offsetStage off [] = [] := by
  cases off with
  | none => rfl
  | some o =>
      simp only [offsetStage]
      split <;> simp

theorem limitStageInMemory_nil (lim : Option Nat) :
    limitStageInMemory lim [] = .ok (false, none, []) := by
  cases lim with
  | none => rfl
  | some l =>
      simp only [limitStageInMemory]
      rw [show decide (([] : List Entity).length > l) = false from
        decide_eq_false (Nat.not_lt_zero l)]
      simp

/-- The shared in-memory/SmolORM filter body over an empty record list
returns the empty page whatever the specification and pagination
arguments. -/
theorem filterFromStore_nil (filters : List FilterQuery)
    (ob : Option String) (desc : Bool) (lim off : Option Nat)
    (cur : Option Val) :
    filterFromStore [] filters ob desc lim off cur =
      .ok ⟨[], 0, false, none⟩ := by
  simp only [filterFromStore, listFilterM, except_bind_ok, orderStage_nil,
    cursorStage_nil, offsetStage_nil, limitStageInMemory_nil,
    List.length_nil, except_pure_eq_ok]

/-! ## Claim theorems -/

/-- C1: the claim says every backend's `filter` returns the same set of
record ids for the same specification and dataset.  On the code this
fails twice over: the in-memory backend's `filter` (empty specification)
returns the single created record (id 1), while the relational backend
cannot even reproduce the dataset through the contract —
`SmolORMRepository.create` always raises, because `SqlModel.create`'s
`ORM.from_(table).create(fields)` calls the classmethod with the fields
dict bound to `table_name` and executes malformed SQL — and, for a
dataset seeded directly into the SQL engine's table,
`SmolORMRepository.filter` still returns the empty result for every
specification and pagination argument, because it reads the
never-populated `self._store` instead of the table its other methods
use. -/
theorem C1_smol_filter_ignores_sql_data
    (r : SmolRepo) (now : DateTime) (entity : Entity)
    (table : List Entity) (n : Nat) (filters : List FilterQuery)
    (ob : Option String) (desc : Bool) (lim off : Option Nat)
    (cur : Option Val) :
    ((emptyInMemoryRepo.create now0 (mkRecord "A")).2.filter [] none false
        none none none).map resultIds = .ok [Val.scalar (.int 1)] ∧
    SmolRepo.create emptySmolRepo now0 (mkRecord "A") =
      .error (.operationalError "near \x7b: syntax error") ∧
    (SmolRepo.create r now entity).isOk = false ∧
    SmolRepo.filter ⟨[], table, n⟩ filters ob desc lim off cur =
      .ok ⟨[], 0, false, none⟩ := by
  refine ⟨by decide, by decide, ?_, ?_⟩
  · unfold SmolRepo.create
    apply except_bind_isOk_false
    intro dumped
    apply except_bind_isOk_false
    intro ser
    apply except_bind_isOk_false
    intro rid
    rfl
  · unfold SmolRepo.filter
    exact filterFromStore_nil filters ob desc lim off cur

/-- C2: the claim says repeated `filter(limit=2, order_by="id")` calls
passing back `next_cursor` reproduce the unpaginated sequence, the first
two pages of 5 records giving the first 4 ids.  On the code the first page
is ids `[1, 2]` with `has_next = true` and `next_cursor = "2"` (a
string), but passing that cursor back compares the string `"2"` against
the integer ids, never matches, and the `StopIteration` handler returns an
empty second page — while the unpaginated call returns all five ids. -/
theorem C2_next_cursor_round_trip_returns_empty_page :
    (repo5.filter [] (some "id") false (some 2) none none).map
        (fun p => (resultIds p, p.total, p.has_next, p.next_cursor)) =
      .ok ([Val.scalar (.int 1), Val.scalar (.int 2)], 5, true, some "2") ∧
    repo5.filter [] (some "id") false (some 2) none
        (some (.scalar (.str "2"))) = .ok ⟨[], 0, false, none⟩ ∧
    (repo5.filter [] (some "id") false none none none).map resultIds =
      .ok [Val.scalar (.int 1), Val.scalar (.int 2), Val.scalar (.int 3),
           Val.scalar (.int 4), Val.scalar (.int 5)] := by
  refine ⟨by decide, by decide, by decide⟩

/-- C3: the claim says `deserialize ∘ serialize` is the identity for all
supported field values.  On the code a datetime does not round-trip:
`serialize` renders it as `isoformat()` text (which never ends in `Z`),
and `deserialize` only parses strings ending in `Z` back to datetimes, so
the round trip returns the ISO string, not the original datetime. -/
theorem C3_datetime_round_trip_not_identity :
    (serialize [("d", Val.scalar (.dt now0))]).bind deserialize =
      .ok [("d", Val.scalar (.str "2024-01-01T00:00:00"))] ∧
    Val.scalar (.str "2024-01-01T00:00:00") ≠ Val.scalar (.dt now0) := by
  constructor <;> decide

/-- C4: the claim says an ordering predicate (`LT..GTE`) on a null or
absent actual value yields "no match" and never raises.  The document
store's query builder does behave that way (both a null-valued and an
absent field fail to match, without raising), but the in-memory
evaluator's `_compare` executes `None < 5`, which raises `TypeError` —
so evaluating such a predicate through `FilterExpressionEvaluator` raises
instead of yielding "no match". -/
theorem C4_null_ordering_comparison_raises_in_evaluator :
    FilterExpressionEvaluator.evaluate [("score", Val.scalar .none)]
        [⟨"score", .lt, .scalar (.int 5)⟩] =
      .error (.typeError "unorderable operand types for comparison") ∧
    FilterExpressionEvaluator.evaluate [("name", Val.scalar (.str "A"))]
        [⟨"score", .lt, .scalar (.int 5)⟩] =
      .error (.typeError "unorderable operand types for comparison") ∧
    (buildTinydbQuery [("score__lt", Val.scalar (.int 5))]).map
        (fun q => (q [("score", Val.scalar .none)],
                   q [("name", Val.scalar (.str "A"))])) =
      .ok (.ok false, .ok false) := by
  refine ⟨by decide, by decide, by decide⟩

/-- C7: the claim says schema synthesis infers each column's affinity from
the runtime type of the field's default (integer→INTEGER, …) and emits a
DEFAULT literal mirroring the default value.  On the code the columns
collected by `_get_coldefs` are `SmolField` objects, so only the
`TextField` test can fire (an `IntField` column gets no affinity token at
all — and even the raw-integer branch would emit `INT`, not `INTEGER`),
and the DEFAULT block, whose `isinstance` rewrites never match a field
object, renders the object itself instead of the default literal.
Declaring plain defaults instead (the style of `smolorm/tests`) makes
`_get_coldefs` raise `No columns defined`. -/
theorem C7_schema_synthesis_ignores_field_defaults :
    initSubclassQuery "game_backlog_entries"
        [("meta_data", .field .intField (.scalar (.int 0)))] =
      .ok ("CREATE TABLE IF NOT EXISTS game_backlog_entries " ++
        "(id INTEGER PRIMARY KEY AUTOINCREMENT, created_at TEXT, " ++
        "updated_at TEXT, deleted_at TEXT, " ++
        "meta_data  DEFAULT <IntField object>);") ∧
    affinity (.field .intField (.scalar (.int 0))) = "" ∧
    colClause "meta_data" (.field .intField (.scalar (.int 0))) =
      .ok "meta_data  DEFAULT <IntField object>, " ∧
    colClause "title" (.field .textField (.scalar (.str "x"))) =
      .ok "title TEXT DEFAULT <TextField object>, " ∧
    initSubclassQuery "test_users"
        [("age", .raw (.scalar (.int 0))),
         ("username", .raw (.scalar (.str "default")))] =
      .error (.repoError "No columns defined") := by
  refine ⟨by decide, by decide, by decide, by decide, by decide⟩

/-- Left-folding append over a snapshot re-creates the snapshot: the
restore loop of `atomic` (truncate, then insert every backed-up document
in order) rebuilds exactly the backed-up table. -/
theorem foldl_append_singleton {α : Type} (l acc : List α) :
    l.foldl (fun a d => a ++ [d]) acc = acc ++ l := by
  induction l generalizing acc with
  | nil => simp
  | cons x xs ih => simp [List.foldl, ih]

/-- C8: inside `TinyDBRepository.atomic`, if the scope's body raises then
the table is truncated and restored from the entry snapshot, so the table
state after the scope equals the state before it, and the exception is
re-raised to the caller. -/
theorem C8_atomic_restores_snapshot_on_exception
    (table : List Entity) (body : List Entity → Except PyError (List Entity))
    (err : PyError) (h : body table = .error err) :
    tinydbAtomic table body = (.error err, table) := by
  unfold tinydbAtomic
  rw [h]
  simp [foldl_append_singleton]

/-- Witness for C8 at a concrete table and a body that raises. -/
theorem C8_atomic_restores_snapshot_on_exception_witness :
    (fun _ : List Entity => (Except.error (PyError.repoError "boom") :
        Except PyError (List Entity))) [[("id", Val.scalar (.int 1))]] =
      .error (.repoError "boom") ∧
    tinydbAtomic [[("id", Val.scalar (.int 1))]]
        (fun _ => .error (.repoError "boom")) =
      (.error (.repoError "boom"), [[("id", Val.scalar (.int 1))]]) :=
  ⟨rfl, C8_atomic_restores_snapshot_on_exception _ _ _ rfl⟩

/-! ## Helper lemmas for the remaining claims -/

/-- Equality against `None` holds exactly for the `None` value. -/
theorem pyEq_none_iff (v : Val) :
    pyEq v (.scalar .none) = true ↔ v = .scalar .none := by
  cases v with
  | scalar s => cases s <;> simp [pyEq, scalarEq]
  | list xs => simp [pyEq]

/-- Evaluating a single `EQ`-against-`None` predicate returns the Python
equality of the (defaulted) attribute with `None`. -/
theorem evaluate_eq_none (e : Entity) (c : String) :
    FilterExpressionEvaluator.evaluate e
        [⟨c, .eq, .scalar .none⟩] =
      .ok (pyEq (getattrD e c) (.scalar .none)) := by
  show (FilterExpressionEvaluator.compareVals (getattrD e c)
      (.scalar .none) .eq >>= fun b =>
        if b then FilterExpressionEvaluator.evaluate e [] else pure false) = _
  rw [show FilterExpressionEvaluator.compareVals (getattrD e c)
      (.scalar .none) .eq = .ok (pyEq (getattrD e c) (.scalar .none)) from rfl]
  rw [except_bind_ok]
  cases pyEq (getattrD e c) (.scalar .none) <;> rfl

/-- Evaluating a single `NEQ`-against-`None` predicate returns the negated
Python equality of the (defaulted) attribute with `None`. -/
theorem evaluate_neq_none (e : Entity) (c : String) :
    FilterExpressionEvaluator.evaluate e
        [⟨c, .neq, .scalar .none⟩] =
      .ok (!pyEq (getattrD e c) (.scalar .none)) := by
  show (FilterExpressionEvaluator.compareVals (getattrD e c)
      (.scalar .none) .neq >>= fun b =>
        if b then FilterExpressionEvaluator.evaluate e [] else pure false) = _
  rw [show FilterExpressionEvaluator.compareVals (getattrD e c)
      (.scalar .none) .neq = .ok (!pyEq (getattrD e c) (.scalar .none)) from rfl]
  rw [except_bind_ok]
  cases pyEq (getattrD e c) (.scalar .none) <;> rfl

/-- C5: as stated — `EQ`/`NEQ` with a null comparison value equivalent to
`IS_NULL`/`IS_NOT_NULL` identically in every backend, including records
where the field is absent — the claim is false: in the document-store
query compiler, on a table holding one document that lacks the field,
`field__eq: None` selects nothing (TinyDB equality never matches an
unresolvable key) while `field__isnull: True` selects the document. -/
theorem C5_counterexample_eq_null_differs_from_isnull_in_tinydb :
    ((buildTinydbQuery [("score__eq", Val.scalar .none)]).bind
        (fun q => searchM [[("name", Val.scalar (.str "A"))]] q)) = .ok [] ∧
    ((buildTinydbQuery [("score__isnull", Val.scalar (.bool true))]).bind
        (fun q => searchM [[("name", Val.scalar (.str "A"))]] q)) =
      .ok [[("name", Val.scalar (.str "A"))]] := by
  constructor <;> decide

/-- C5 (amended): `EQ` (resp. `NEQ`) with a null comparison value matches,
in the in-memory evaluator, exactly the records whose field is null or
absent (resp. its complement) — the spec's `IS_NULL`/`IS_NOT_NULL`
semantics — and the SQL expression compiler compiles them to
`IS NULL`/`IS NOT NULL`; but in the document-store query compiler the
equivalence fails: on a record whose field is absent, `eq` with null does
not match while `isnull` does. -/
theorem C5_null_equivalence_amended (e : Entity) (c : String) (d : Entity)
    (hd : d.lookup c = none) :
    (FilterExpressionEvaluator.evaluate e [⟨c, .eq, .scalar .none⟩] =
        .ok true ↔ getattrD e c = .scalar .none) ∧
    (FilterExpressionEvaluator.evaluate e [⟨c, .neq, .scalar .none⟩] =
        .ok true ↔ ¬ getattrD e c = .scalar .none) ∧
    FilterExpressionEvaluator.filterQueryToSqlQuery ⟨c, .eq, .scalar .none⟩ =
      .ok (.isNull c) ∧
    FilterExpressionEvaluator.filterQueryToSqlQuery ⟨c, .neq, .scalar .none⟩ =
      .ok (.isNotNull c) ∧
    (buildCondition c "eq" (Val.scalar .none)).map (fun q => q d) =
      .ok (.ok false) ∧
    (buildCondition c "isnull" (Val.scalar (.bool true))).map (fun q => q d) =
      .ok (.ok true) := by
  refine ⟨?_, ?_, rfl, rfl, ?_, ?_⟩
  · rw [evaluate_eq_none]
    constructor
    · intro h
      have hb : pyEq (getattrD e c) (.scalar .none) = true := by
        injection h
      exact (pyEq_none_iff _).mp hb
    · intro h
      rw [(pyEq_none_iff _).mpr h]
  · rw [evaluate_neq_none]
    constructor
    · intro h
      have hb : (!pyEq (getattrD e c) (.scalar .none)) = true := by
        injection h
      intro heq
      rw [(pyEq_none_iff _).mpr heq] at hb
      simp at hb
    · intro h
      have hb : pyEq (getattrD e c) (.scalar .none) = false := by
        cases hpe : pyEq (getattrD e c) (.scalar .none) with
        | true => exact absurd ((pyEq_none_iff _).mp hpe) h
        | false => rfl
      rw [hb]
      rfl
  · show Except.ok ((qEqCond c (Val.scalar .none)) d) = .ok (.ok false)
    unfold qEqCond
    rw [hd]
  · show Except.ok (Except.ok (!qExists c d)) = .ok (.ok true)
    unfold qExists
    rw [hd]
    rfl

/-- Witness for C5 (amended) at the concrete field `score`, a record
where the field is explicitly null, and a document lacking the field. -/
theorem C5_null_equivalence_amended_witness :
    (([("name", Val.scalar (.str "A"))] : Entity).lookup "score" = none) ∧
    ((FilterExpressionEvaluator.evaluate [("score", Val.scalar .none)]
          [⟨"score", .eq, .scalar .none⟩] = .ok true ↔
        getattrD [("score", Val.scalar .none)] "score" = .scalar .none) ∧
      (FilterExpressionEvaluator.evaluate [("score", Val.scalar .none)]
          [⟨"score", .neq, .scalar .none⟩] = .ok true ↔
        ¬ getattrD [("score", Val.scalar .none)] "score" = .scalar .none) ∧
      FilterExpressionEvaluator.filterQueryToSqlQuery
          ⟨"score", .eq, .scalar .none⟩ = .ok (.isNull "score") ∧
      FilterExpressionEvaluator.filterQueryToSqlQuery
          ⟨"score", .neq, .scalar .none⟩ = .ok (.isNotNull "score") ∧
      (buildCondition "score" "eq" (Val.scalar .none)).map
          (fun q => q [("name", Val.scalar (.str "A"))]) = .ok (.ok false) ∧
      (buildCondition "score" "isnull" (Val.scalar (.bool true))).map
          (fun q => q [("name", Val.scalar (.str "A"))]) = .ok (.ok true)) :=
  ⟨by decide,
   C5_null_equivalence_amended [("score", Val.scalar .none)] "score"
     [("name", Val.scalar (.str "A"))] (by decide)⟩

/-- The record produced by creating `mkRecord "A"` in a fresh in-memory
repository. -/
def createdA : Entity :=
  [("id", Val.scalar (.int 1)), ("name", Val.scalar (.str "A")),
   ("created_at", Val.scalar (.dt now0)),
   ("updated_at", Val.scalar (.dt now0)),
   ("deleted_at", Val.scalar .none)]

/-- A fresh in-memory repository holding that one record. -/
def repoA : InMemoryRepo := (emptyInMemoryRepo.create now0 (mkRecord "A")).2

/-- C6: a specification naming an operator outside the supported closed
set fails at the first evaluation or compile attempt with the
`Unsupported … operator` `ValueError`, and that failure propagates: the
evaluator's `_compare` and the SQL compiler's `filter_query_to_sql_query`
raise it, the in-memory `filter` surfaces it to the caller unswallowed
(whatever the pagination arguments), the document-store builder raises it
for an unknown operator token — and there the enclosing `try`/`except` of
`TinyDBRepository.filter` degrades to the in-memory-evaluator fallback,
the one sanctioned exception. -/
theorem C6_unsupported_operator_raises_and_propagates
    (actual expected v w : Val) (c tok : String)
    (r : InMemoryRepo) (rest : List FilterQuery) (ob : Option String)
    (desc : Bool) (lim off : Option Nat) (cur : Option Val)
    (e : Entity) (es : List Entity) (table : List Entity)
    (hs : r.store.map Prod.snd = e :: es) :
    FilterExpressionEvaluator.compareVals actual expected (.unknown tok) =
      .error (.valueError ("Unsupported filter operator: " ++ tok)) ∧
    FilterExpressionEvaluator.filterQueryToSqlQuery ⟨c, .unknown tok, v⟩ =
      .error (.valueError ("Unsupported operator: " ++ tok)) ∧
    r.filter (⟨c, .unknown tok, v⟩ :: rest) ob desc lim off cur =
      .error (.valueError ("Unsupported filter operator: " ++ tok)) ∧
    buildTinydbQuery [("name__unknown", w)] =
      .error (.valueError "Unsupported filter operator: unknown") ∧
    tinydbMatch table [("name__unknown", w)] =
      listFilterM (fun _ => evaluateDictArg [("name__unknown", w)])
        (dictsToEntities table) := by
  refine ⟨rfl, rfl, ?_, rfl, rfl⟩
  unfold InMemoryRepo.filter
  rw [hs]
  rfl

/-- Witness for C6 at a concrete repository holding one record, a
concrete unsupported operator token, and a concrete document table. -/
theorem C6_unsupported_operator_raises_and_propagates_witness :
    repoA.store.map Prod.snd = createdA :: [] ∧
    (FilterExpressionEvaluator.compareVals (Val.scalar (.int 1))
        (Val.scalar (.int 2)) (.unknown "FilterOp.XX") =
      .error (.valueError ("Unsupported filter operator: " ++ "FilterOp.XX")) ∧
    FilterExpressionEvaluator.filterQueryToSqlQuery
        ⟨"name", .unknown "FilterOp.XX", Val.scalar (.str "x")⟩ =
      .error (.valueError ("Unsupported operator: " ++ "FilterOp.XX")) ∧
    repoA.filter (⟨"name", .unknown "FilterOp.XX", Val.scalar (.str "x")⟩ :: [])
        none false none none none =
      .error (.valueError ("Unsupported filter operator: " ++ "FilterOp.XX")) ∧
    buildTinydbQuery [("name__unknown", Val.scalar (.str "x"))] =
      .error (.valueError "Unsupported filter operator: unknown") ∧
    tinydbMatch [[("name", Val.scalar (.str "A"))]]
        [("name__unknown", Val.scalar (.str "x"))] =
      listFilterM (fun _ => evaluateDictArg
          [("name__unknown", Val.scalar (.str "x"))])
        (dictsToEntities [[("name", Val.scalar (.str "A"))]])) :=
  ⟨by decide,
   C6_unsupported_operator_raises_and_propagates (Val.scalar (.int 1))
     (Val.scalar (.int 2)) (Val.scalar (.str "x")) (Val.scalar (.str "x"))
     "name" "FilterOp.XX" repoA [] none false none none none createdA []
     [[("name", Val.scalar (.str "A"))]] (by decide)⟩

/-! ## Lookup lemmas for `model_copy` and the store -/

theorem lookup_cons_self {α β : Type} [DecidableEq α] (a : α) (b : β)
    (t : List (α × β)) : ((a, b) :: t).lookup a = some b := by
  simp [List.lookup]

theorem lookup_cons_ne {α β : Type} [DecidableEq α] (a k : α) (b : β)
    (t : List (α × β)) (h : ¬ k = a) :
    ((a, b) :: t).lookup k = t.lookup k := by
  have hb : (k == a) = false := by
    rw [beq_eq_false_iff_ne]
    exact h
  simp [List.lookup, hb]

theorem lookup_append {α β : Type} [DecidableEq α] (l₁ l₂ : List (α × β))
    (k : α) :
    (l₁ ++ l₂).lookup k = ((l₁.lookup k).orElse fun _ => l₂.lookup k) := by
  induction l₁ with
  | nil =>
      show l₂.lookup k = ((none : Option β).orElse fun _ => l₂.lookup k)
      cases l₂.lookup k <;> rfl
  | cons p t ih =>
      rcases p with ⟨a, b⟩
      by_cases h : k = a
      · subst h
        rw [List.cons_append, lookup_cons_self, lookup_cons_self]
        rfl
      · rw [List.cons_append, lookup_cons_ne _ _ _ _ h,
          lookup_cons_ne _ _ _ _ h, ih]

theorem lookup_filter_none {α β : Type} [DecidableEq α]
    (p : α × β → Bool) (l : List (α × β)) (k : α) (h : l.lookup k = none) :
    (l.filter p).lookup k = none := by
  induction l with
  | nil => rfl
  | cons x t ih =>
      rcases x with ⟨a, b⟩
      by_cases hk : k = a
      · subst hk
        rw [lookup_cons_self] at h
        exact absurd h (by simp)
      · have ht : t.lookup k = none := by
          rw [lookup_cons_ne _ _ _ _ hk] at h
          exact h
        by_cases hp : p (a, b)
        · rw [List.filter_cons_of_pos hp, lookup_cons_ne _ _ _ _ hk]
          exact ih ht
        · rw [List.filter_cons_of_neg hp]
          exact ih ht

theorem lookup_map_patch (e : Entity) (patch : List (String × Val))
    (k : String) (h : patch.lookup k = none) :
    (e.map (fun p =>
      match patch.lookup p.1 with
      | some w => (p.1, w)
      | none => p)).lookup k = e.lookup k := by
  induction e with
  | nil => rfl
  | cons x t ih =>
      rcases x with ⟨a, b⟩
      rw [List.map_cons]
      by_cases hk : k = a
      · subst hk
        have hpa : patch.lookup (k, b).1 = none := h
        cases hmatch : (match patch.lookup (k, b).1 with
            | some w => ((k, b).1, w)
            | none => (k, b)) with
        | mk a' b' =>
            rw [hpa] at hmatch
            injection hmatch with h1 h2
            subst h1
            subst h2
            rw [lookup_cons_self, lookup_cons_self]
      · cases hmatch : (match patch.lookup (a, b).1 with
            | some w => ((a, b).1, w)
            | none => (a, b)) with
        | mk a' b' =>
            have ha' : a' = a := by
              cases hpa : patch.lookup (a, b).1 <;>
                rw [hpa] at hmatch <;> injection hmatch with h1 h2 <;>
                  exact h1.symm
            subst ha'
            rw [lookup_cons_ne _ _ _ _ hk, lookup_cons_ne _ _ _ _ hk, ih]

theorem lookup_modelCopy_of_not_in_patch (e : Entity)
    (patch : List (String × Val)) (k : String)
    (h : patch.lookup k = none) :
    (modelCopy e patch).lookup k = e.lookup k := by
  unfold modelCopy
  rw [lookup_append, lookup_map_patch e patch k h,
      lookup_filter_none _ patch k h]
  cases e.lookup k <;> rfl

theorem getattrD_modelCopy_of_not_in_patch (e : Entity)
    (patch : List (String × Val)) (k : String)
    (h : patch.lookup k = none) :
    getattrD (modelCopy e patch) k = getattrD e k := by
  unfold getattrD
  rw [lookup_modelCopy_of_not_in_patch e patch k h]

theorem lookup_map_setVal (d : List (String × Val)) (k k' : String)
    (v : Val) (hne : k' ≠ k) :
    (d.map (fun p => if p.1 = k then (p.1, v) else p)).lookup k' =
      d.lookup k' := by
  induction d with
  | nil => rfl
  | cons x t ih =>
      rcases x with ⟨a, b⟩
      rw [List.map_cons]
      by_cases hak : (a, b).1 = k
      · rw [if_pos hak]
        have hk'a : ¬ k' = a := by
          intro hk'
          exact hne (hk'.trans hak)
        rw [lookup_cons_ne _ _ _ _ hk'a, lookup_cons_ne _ _ _ _ hk'a, ih]
      · rw [if_neg hak]
        by_cases hk : k' = a
        · subst hk
          rw [lookup_cons_self, lookup_cons_self]
        · rw [lookup_cons_ne _ _ _ _ hk, lookup_cons_ne _ _ _ _ hk, ih]

theorem lookup_setKey_ne (d : List (String × Val)) (k k' : String)
    (v : Val) (hne : k' ≠ k) :
    (setKey d k v).lookup k' = d.lookup k' := by
  unfold setKey
  by_cases hex : (d.lookup k).isSome
  · rw [if_pos hex, lookup_map_setVal d k k' v hne]
  · rw [if_neg hex, lookup_append]
    have hsingle : ([(k, v)] : List (String × Val)).lookup k' = none := by
      rw [lookup_cons_ne _ _ _ _ hne]
      rfl
    rw [hsingle]
    cases d.lookup k' <;> rfl

theorem lookup_storeSet_self {κ : Type} [DecidableEq κ]
    (s : List (κ × Entity)) (k : κ) (v : Entity) :
    (storeSet s k v).lookup k = some v := by
  induction s with
  | nil => exact lookup_cons_self k v []
  | cons x t ih =>
      rcases x with ⟨a, b⟩
      unfold storeSet
      by_cases hak : a = k
      · rw [if_pos hak, lookup_cons_self]
      · have hka : ¬ k = a := fun h => hak h.symm
        rw [if_neg hak, lookup_cons_ne _ _ _ _ hka]
        exact ih

/-- C9: as stated — no repository operation, in particular `update` with
an arbitrary patch dictionary, changes a record's assigned id — the claim
is false: updating the record created with id 1 with the patch
`{"id": 42}` stores (and returns) the record with id 42. -/
theorem C9_counterexample_update_patch_can_change_id :
    (repoA.update now0 1 [("id", Val.scalar (.int 42))]).map
        (fun p => (getattrD p.1 "id",
          (p.2.store.lookup 1).map (fun e => getattrD e "id"))) =
      .ok (Val.scalar (.int 42), some (Val.scalar (.int 42))) ∧
    (Val.scalar (.int 42) : Val) ≠ Val.scalar (.int 1) := by
  constructor <;> decide

/-- C9 (amended): a record's id is unchanged by `update` for every patch
that does not itself contain an `"id"` key (the merge `model_copy(update=
patch)` copies the caller's patch verbatim, so a patch carrying `"id"`
overwrites the assigned id; `create` always overwrites any caller-supplied
id with the repository's counter). -/
theorem C9_id_immutable_for_patches_without_id
    (r : InMemoryRepo) (now : DateTime) (entityId : Nat)
    (patch : List (String × Val)) (e' : Entity) (r' : InMemoryRepo)
    (old : Entity)
    (hold : r.store.lookup entityId = some old)
    (hp : patch.lookup "id" = none)
    (hu : r.update now entityId patch = .ok (e', r')) :
    getattrD e' "id" = getattrD old "id" ∧
    r'.store.lookup entityId = some e' := by
  unfold InMemoryRepo.update at hu
  rw [hold] at hu
  injection hu with h
  rw [Prod.mk.injEq] at h
  obtain ⟨he, hr⟩ := h
  subst he
  subst hr
  have hp' : (setKey patch "updated_at" (.scalar (.dt now))).lookup "id" =
      none := by
    rw [lookup_setKey_ne patch "updated_at" "id" _ (by decide)]
    exact hp
  exact ⟨getattrD_modelCopy_of_not_in_patch old _ "id" hp',
    lookup_storeSet_self r.store entityId _⟩

/-- The record stored after updating `repoA`'s record 1 with
`{"name": "B"}`. -/
def updatedB : Entity :=
  [("id", Val.scalar (.int 1)), ("name", Val.scalar (.str "B")),
   ("created_at", Val.scalar (.dt now0)),
   ("updated_at", Val.scalar (.dt now0)),
   ("deleted_at", Val.scalar .none)]

/-- Witness for C9 (amended) at the concrete repository `repoA`, record 1
and the id-free patch `{"name": "B"}`. -/
theorem C9_id_immutable_for_patches_without_id_witness :
    repoA.store.lookup 1 = some createdA ∧
    ([("name", Val.scalar (.str "B"))] :
        List (String × Val)).lookup "id" = none ∧
    repoA.update now0 1 [("name", Val.scalar (.str "B"))] =
      .ok (updatedB, ⟨[(1, updatedB)], 2⟩) ∧
    (getattrD updatedB "id" = getattrD createdA "id" ∧
      (⟨[(1, updatedB)], 2⟩ : InMemoryRepo).store.lookup 1 = some updatedB) :=
  ⟨by decide, by decide, by decide,
   C9_id_immutable_for_patches_without_id repoA now0 1
     [("name", Val.scalar (.str "B"))] updatedB ⟨[(1, updatedB)], 2⟩
     createdA (by decide) (by decide) (by decide)⟩

/-! ## Pipeline lemmas for C10 -/

theorem except_bind_ok_elim {ε α β : Type} {x : Except ε α}
    {f : α → Except ε β} {b : β} (h : (x >>= f) = .ok b) :
    ∃ a, x = .ok a ∧ f a = .ok b := by
  cases x with
  | error e =>
      rw [except_bind_error] at h
      exact Except.noConfusion h
  | ok a =>
      rw [except_bind_ok] at h
      exact ⟨a, rfl, h⟩

theorem insertSortedM_ok {α : Type} (ltc : α → α → Except PyError Bool)
    (x : α) (l l' : List α) (h : insertSortedM ltc x l = .ok l') :
    (∀ a ∈ l', a = x ∨ a ∈ l) ∧ l'.length = l.length + 1 := by
  induction l generalizing l' with
  | nil =>
      unfold insertSortedM at h
      injection h with h'
      subst h'
      exact ⟨by intro a ha; simp at ha; exact Or.inl ha, rfl⟩
  | cons y ys ih =>
      unfold insertSortedM at h
      obtain ⟨b, hb, h1⟩ := except_bind_ok_elim h
      split at h1
      · obtain ⟨r, hr, h2⟩ := except_bind_ok_elim h1
        injection h2 with h2'
        subst h2'
        obtain ⟨ihm, ihl⟩ := ih r hr
        constructor
        · intro a ha
          rcases List.mem_cons.mp ha with h3 | h4
          · exact Or.inr (List.mem_cons.mpr (Or.inl h3))
          · rcases ihm a h4 with h5 | h6
            · exact Or.inl h5
            · exact Or.inr (List.mem_cons.mpr (Or.inr h6))
        · simp [ihl]
      · injection h1 with h1'
        subst h1'
        constructor
        · intro a ha
          rcases List.mem_cons.mp ha with h3 | h4
          · exact Or.inl h3
          · exact Or.inr h4
        · rfl

theorem sortListM_ok {α : Type} (ltc : α → α → Except PyError Bool)
    (l l' : List α) (h : sortListM ltc l = .ok l') :
    (∀ a ∈ l', a ∈ l) ∧ l'.length = l.length := by
  induction l generalizing l' with
  | nil =>
      unfold sortListM at h
      injection h with h'
      subst h'
      exact ⟨by intro a ha; exact absurd ha (List.not_mem_nil a), rfl⟩
  | cons x xs ih =>
      unfold sortListM at h
      obtain ⟨s, hs, h1⟩ := except_bind_ok_elim h
      obtain ⟨im, il⟩ := insertSortedM_ok ltc x s l' h1
      obtain ⟨sm, sl⟩ := ih s hs
      constructor
      · intro a ha
        rcases im a ha with h2 | h3
        · subst h2
          exact List.mem_cons_self a xs
        · exact List.mem_cons.mpr (Or.inr (sm a h3))
      · rw [il, sl]
        rfl

theorem orderStage_ok_facts (ob : String) (desc : Bool)
    (items sorted : List Entity) (hob : ¬ ob = "")
    (h : orderStage (some ob) desc items = .ok sorted) :
    (∀ e ∈ sorted, e ∈ items ∧ (!isNoneV (getattrD e ob)) = true) ∧
    sorted.length =
      (items.filter (fun e => !isNoneV (getattrD e ob))).length := by
  simp only [orderStage] at h
  rw [if_neg hob] at h
  obtain ⟨hm, hl⟩ := sortListM_ok _ _ _ h
  refine ⟨?_, hl⟩
  intro e he
  have h1 := List.mem_filter.mp (hm e he)
  exact ⟨h1.1, h1.2⟩

theorem orderStageTinydb_ok_facts (ob : String) (desc : Bool)
    (items sorted : List Entity) (hob : ¬ ob = "")
    (h : orderStageTinydb (some ob) desc items = .ok sorted) :
    (∀ e ∈ sorted, e ∈ items ∧ (!isNoneV (getattrD e ob)) = true) ∧
    sorted.length =
      (items.filter (fun e => !isNoneV (getattrD e ob))).length := by
  simp only [orderStageTinydb] at h
  split at h
  · next hcond =>
      injection h with h'
      have hnil : items = [] := by
        rcases Bool.or_eq_true_iff.mp hcond with h1 | h2
        · exact absurd (of_decide_eq_true h1) hob
        · exact List.isEmpty_iff.mp h2
      subst hnil
      subst h'
      exact ⟨by intro e he; exact absurd he (List.not_mem_nil e), rfl⟩
  · obtain ⟨hm, hl⟩ := sortListM_ok _ _ _ h
    refine ⟨?_, hl⟩
    intro e he
    have h1 := List.mem_filter.mp (hm e he)
    exact ⟨h1.1, h1.2⟩

theorem cursorStage_none (items : List Entity) :
    cursorStage none items = items := rfl

theorem cursorStage_subset (cursor : Option Val) (items : List Entity) :
    ∀ e ∈ cursorStage cursor items, e ∈ items := by
  intro e he
  cases cursor with
  | none => exact he
  | some cv =>
      simp only [cursorStage] at he
      split at he
      · exact List.drop_subset _ _ he
      · exact absurd he (List.not_mem_nil e)

theorem offsetStage_subset (offset : Option Nat) (items : List Entity) :
    ∀ e ∈ offsetStage offset items, e ∈ items := by
  intro e he
  cases offset with
  | none => exact he
  | some o =>
      simp only [offsetStage] at he
      split at he
      · exact he
      · exact List.drop_subset _ _ he

theorem limitStageInMemory_ok_mem (limit : Option Nat)
    (items : List Entity) (t : Bool × Option String × List Entity)
    (h : limitStageInMemory limit items = .ok t) :
    ∀ e ∈ t.2.2, e ∈ items := by
  cases limit with
  | none =>
      injection h with h'
      subst h'
      intro e he
      exact he
  | some l =>
      simp only [limitStageInMemory] at h
      split at h
      · split at h
        · obtain ⟨idv, _, h2⟩ := except_bind_ok_elim h
          injection h2 with h2'
          subst h2'
          intro e he
          exact List.take_subset _ _ he
        · exact Except.noConfusion h
      · injection h with h'
        subst h'
        intro e he
        exact List.take_subset _ _ he

theorem limitStageTinydb_ok_mem (limit : Option Nat)
    (items : List Entity) (t : Bool × Option String × List Entity)
    (h : limitStageTinydb limit items = .ok t) :
    ∀ e ∈ t.2.2, e ∈ items := by
  cases limit with
  | none =>
      injection h with h'
      subst h'
      intro e he
      exact he
  | some l =>
      simp only [limitStageTinydb] at h
      split at h
      · split at h
        · obtain ⟨idv, _, h2⟩ := except_bind_ok_elim h
          injection h2 with h2'
          subst h2'
          intro e he
          exact List.take_subset _ _ he
        · injection h with h'
          subst h'
          intro e he
          exact List.take_subset _ _ he
      · injection h with h'
        subst h'
        intro e he
        exact List.take_subset _ _ he

/-- Extraction of the two C10 facts from a successful in-memory/SmolORM
`filter` run. -/
theorem filterFromStore_null_order_facts
    (stored : List Entity) (filters : List FilterQuery) (ob : String)
    (desc : Bool) (limit offset : Option Nat) (cursor : Option Val)
    (matched : List Entity) (res : PaginatedResult)
    (hob : ¬ ob = "")
    (hm : listFilterM
      (fun e => FilterExpressionEvaluator.evaluate e filters) stored =
        .ok matched)
    (hr : filterFromStore stored filters (some ob) desc limit offset
        cursor = .ok res) :
    res.result.all (fun e => !isNoneV (getattrD e ob)) = true ∧
    (cursor = none →
      res.total =
        (matched.filter (fun e => !isNoneV (getattrD e ob))).length) := by
  unfold filterFromStore at hr
  obtain ⟨m, hmA, hr1⟩ := except_bind_ok_elim hr
  have hmm : m = matched := by
    rw [hm] at hmA
    injection hmA with h'
    exact h'.symm
  subst hmm
  obtain ⟨s, hs, hr2⟩ := except_bind_ok_elim hr1
  obtain ⟨hsm, hsl⟩ := orderStage_ok_facts ob desc m s hob hs
  obtain ⟨t, ht, hr3⟩ := except_bind_ok_elim hr2
  injection hr3 with hr'
  constructor
  · rw [List.all_eq_true]
    intro e he
    rw [← hr'] at he
    have h1 := limitStageInMemory_ok_mem _ _ _ ht e he
    have h2 := offsetStage_subset _ _ _ h1
    have h3 := cursorStage_subset _ _ _ h2
    exact (hsm e h3).2
  · intro hcur
    subst hcur
    rw [← hr']
    show (cursorStage none s).length = _
    rw [cursorStage_none]
    exact hsl

/-- Extraction of the two C10 facts from a successful document-store
`filter` run. -/
theorem tinydbFilter_null_order_facts
    (table : List Entity) (tfilters : List (String × Val)) (ob : String)
    (desc : Bool) (limit offset : Option Nat) (cursor : Option Val)
    (tmatched : List Entity) (tres : PaginatedResult)
    (hob : ¬ ob = "")
    (htm : tinydbMatch table tfilters = .ok tmatched)
    (htr : tinydbFilter table tfilters (some ob) desc limit offset
        cursor = .ok tres) :
    tres.result.all (fun e => !isNoneV (getattrD e ob)) = true ∧
    (cursor = none →
      tres.total =
        (tmatched.filter (fun e => !isNoneV (getattrD e ob))).length) := by
  unfold tinydbFilter at htr
  obtain ⟨m, hmA, hr1⟩ := except_bind_ok_elim htr
  have hmm : m = tmatched := by
    rw [htm] at hmA
    injection hmA with h'
    exact h'.symm
  subst hmm
  obtain ⟨s, hs, hr2⟩ := except_bind_ok_elim hr1
  obtain ⟨hsm, hsl⟩ := orderStageTinydb_ok_facts ob desc m s hob hs
  obtain ⟨t, ht, hr3⟩ := except_bind_ok_elim hr2
  injection hr3 with hr'
  constructor
  · rw [List.all_eq_true]
    intro e he
    rw [← hr'] at he
    have h1 := limitStageTinydb_ok_mem _ _ _ ht e he
    have h2 := offsetStage_subset _ _ _ h1
    have h3 := cursorStage_subset _ _ _ h2
    exact (hsm e h3).2
  · intro hcur
    subst hcur
    rw [← hr']
    show (cursorStage none s).length = _
    rw [cursorStage_none]
    exact hsl

/-- C10: in every backend's `filter` with a (truthy) `order_by`, a record
whose `order_by` attribute is null or absent is excluded from the returned
items and — with no cursor — from the reported total, even when it matches
every predicate: the returned items all carry a non-null attribute, and
the total counts exactly the matched records whose attribute is non-null.
The in-memory statement also covers `SmolORMRepository.filter`, whose body
is the same `filterFromStore`. -/
theorem C10_order_by_excludes_null_attribute_records
    (stored : List Entity) (filters : List FilterQuery) (ob : String)
    (descending : Bool) (limit offset : Option Nat) (cursor : Option Val)
    (matched : List Entity) (res res0 : PaginatedResult)
    (table : List Entity) (tfilters : List (String × Val))
    (tmatched : List Entity) (tres tres0 : PaginatedResult)
    (hob : ¬ ob = "")
    (hm : listFilterM
      (fun e => FilterExpressionEvaluator.evaluate e filters) stored =
        .ok matched)
    (hr : filterFromStore stored filters (some ob) descending limit offset
        cursor = .ok res)
    (hr0 : filterFromStore stored filters (some ob) descending limit offset
        none = .ok res0)
    (htm : tinydbMatch table tfilters = .ok tmatched)
    (htr : tinydbFilter table tfilters (some ob) descending limit offset
        cursor = .ok tres)
    (htr0 : tinydbFilter table tfilters (some ob) descending limit offset
        none = .ok tres0) :
    res.result.all (fun e => !isNoneV (getattrD e ob)) = true ∧
    res0.total =
      (matched.filter (fun e => !isNoneV (getattrD e ob))).length ∧
    tres.result.all (fun e => !isNoneV (getattrD e ob)) = true ∧
    tres0.total =
      (tmatched.filter (fun e => !isNoneV (getattrD e ob))).length := by
  refine ⟨(filterFromStore_null_order_facts stored filters ob descending
      limit offset cursor matched res hob hm hr).1,
    (filterFromStore_null_order_facts stored filters ob descending limit
      offset none matched res0 hob hm hr0).2 rfl,
    (tinydbFilter_null_order_facts table tfilters ob descending limit
      offset cursor tmatched tres hob htm htr).1,
    (tinydbFilter_null_order_facts table tfilters ob descending limit
      offset none tmatched tres0 hob htm htr0).2 rfl⟩

/-- A record whose `score` is null and one whose `score` is set, for the
C10 witness. -/
def eScoreNull : Entity := [("id", Val.scalar (.int 1)), ("score", Val.scalar .none)]

def eScoreVal : Entity := [("id", Val.scalar (.int 2)), ("score", Val.scalar (.int 7))]

/-- Witness for C10 at a concrete two-record dataset (one record with a
null `score`), the empty specification, `order_by = "score"`. -/
theorem C10_order_by_excludes_null_attribute_records_witness :
    (¬ ("score" : String) = "") ∧
    listFilterM (fun e => FilterExpressionEvaluator.evaluate e [])
        [eScoreNull, eScoreVal] = .ok [eScoreNull, eScoreVal] ∧
    filterFromStore [eScoreNull, eScoreVal] [] (some "score") false none
        none none = .ok ⟨[eScoreVal], 1, false, none⟩ ∧
    tinydbMatch [eScoreNull, eScoreVal] [] = .ok [eScoreNull, eScoreVal] ∧
    tinydbFilter [eScoreNull, eScoreVal] [] (some "score") false none none
        none = .ok ⟨[eScoreVal], 1, false, none⟩ ∧
    (([eScoreVal].all (fun e => !isNoneV (getattrD e "score")) = true) ∧
      (1 : Nat) = (([eScoreNull, eScoreVal].filter
        (fun e => !isNoneV (getattrD e "score"))).length) ∧
      ([eScoreVal].all (fun e => !isNoneV (getattrD e "score")) = true) ∧
      (1 : Nat) = (([eScoreNull, eScoreVal].filter
        (fun e => !isNoneV (getattrD e "score"))).length)) :=
  ⟨by decide, by decide, by decide, by decide, by decide,
   C10_order_by_excludes_null_attribute_records [eScoreNull, eScoreVal] []
     "score" false none none none [eScoreNull, eScoreVal]
     ⟨[eScoreVal], 1, false, none⟩ ⟨[eScoreVal], 1, false, none⟩
     [eScoreNull, eScoreVal] [] [eScoreNull, eScoreVal]
     ⟨[eScoreVal], 1, false, none⟩ ⟨[eScoreVal], 1, false, none⟩
     (by decide) (by decide) (by decide) (by decide) (by decide)
     (by decide) (by decide)⟩

end Vidyalog
